import Mathlib

/-!
# Verification of the statsd member-statistics engine

Shallow embedding of the core of `ddritzenhoff/statsd`: the member record
store (`sqlite/member.go`, schema `UNIQUE(slack_uid, month_year)`), the
leaderboard queries (`sqlite/query.sql`, `sqlite/leaderboard.go`) and the
reaction-event reconciliation handlers (`http/slack.go`).

Modelling conventions: machine integers are `Int`; timestamps are `Int`
ticks; the SQLite table is a `List Member`; fallible Go functions return
`Except Err _`; the wall clock and the fresh surrogate row id are explicit
parameters.  A mutating operation that fails returns only the error — in
the source every mutation runs inside a transaction with a deferred
rollback, so a failed call leaves the table unchanged.
-/

set_option autoImplicit false

namespace Statsd

/-- Application error codes (`statsd.ErrNotFound`, `statsd.ErrInvalid`) together
with the store-level error values that reach callers unmapped: `sqlNoRows` is
`database/sql.ErrNoRows` as surfaced by a sqlc `:one` query with zero rows, and
`conflict` is the SQLite uniqueness-constraint violation on insert.  The four
values are pairwise distinct, as the corresponding Go error values are. -/
inductive Err where
  | notFound
  | invalid
  | conflict
  | sqlNoRows
deriving DecidableEq, Repr

/-- Member row (`statsd.Member` / table `members`): surrogate `id`, the
month partition `date` in canonical `MM-YYYY` string form (`MonthYear`),
the external identity `slackUID`, the two counters, and the two timestamps. -/
structure Member where
  id : Int
  date : String
  slackUID : String
  receivedLikes : Int
  receivedDislikes : Int
  createdAt : Int
  updatedAt : Int
deriving DecidableEq, Repr

/-- The `members` table: a list of rows. -/
abbrev Store := List Member

/-- Go `max` on integers as used in `http/slack.go` (`if a > b then a else b`). -/
def goMax (a b : Int) : Int :=
  if a > b then a else b

/-- Counter-delta closure passed to `HandleReactionEvent` for a `+1` add
(`m.ReceivedLikes += 1`). -/
def addLike (m : Member) : Member :=
  { m with receivedLikes := m.receivedLikes + 1 }

/-- Counter-delta closure for a `-1` add (`m.ReceivedDislikes += 1`). -/
def addDislike (m : Member) : Member :=
  { m with receivedDislikes := m.receivedDislikes + 1 }

/-- Counter-delta closure for a `+1` removal
(`m.ReceivedLikes = max(m.ReceivedLikes-1, 0)`). -/
def removeLike (m : Member) : Member :=
  { m with receivedLikes := goMax (m.receivedLikes - 1) 0 }

/-- Counter-delta closure for a `-1` removal
(`m.ReceivedDislikes = max(m.ReceivedDislikes-1, 0)`). -/
def removeDislike (m : Member) : Member :=
  { m with receivedDislikes := goMax (m.receivedDislikes - 1) 0 }

/-- Reaction polarity: `positive` is the `+1` reaction, `negative` the `-1`. -/
inductive Polarity where
  | positive
  | negative
deriving DecidableEq, Repr

/-- Event direction: reaction added or removed. -/
inductive Direction where
  | added
  | removed
deriving DecidableEq, Repr

/-- The counter delta a reaction event applies to the target member's record,
as dispatched by `HandleReactionAddedEvent` / `HandleReactionRemovedEvent`. -/
def applyDelta : Direction → Polarity → Member → Member
  | .added, .positive => addLike
  | .added, .negative => addDislike
  | .removed, .positive => removeLike
  | .removed, .negative => removeDislike

/-- Fold a sequence of reaction-event deltas over one member record. -/
def applyEvents (es : List (Direction × Polarity)) (m : Member) : Member :=
  es.foldl (fun acc e => applyDelta e.1 e.2 acc) m

/-- `Member.Validate`: error wrapping `ErrInvalid` when the Slack user ID is
empty, success otherwise. -/
def Validate (m : Member) : Except Err Unit :=
  if m.slackUID = "" then .error .invalid else .ok ()

/-- `MemberService.FindMember`: `SELECT ... WHERE slack_uid = ? AND
month_year = ? LIMIT 1`, with `sql.ErrNoRows` mapped to `ErrNotFound`. -/
def FindMember (store : Store) (uid my : String) : Except Err Member :=
  match store.find? (fun x => x.slackUID == uid && x.date == my) with
  | none => .error .notFound
  | some m => .ok m

/-- `MemberService.FindMemberByID`: `SELECT ... WHERE id = ? LIMIT 1`, with
`sql.ErrNoRows` mapped to `ErrNotFound`. -/
def FindMemberByID (store : Store) (id : Int) : Except Err Member :=
  match store.find? (fun x => x.id == id) with
  | none => .error .notFound
  | some m => .ok m

/-- `MemberService.CreateMember`: validate, then `INSERT INTO members
(month_year, slack_uid, created_at, updated_at) VALUES (?,?,?,?) RETURNING *`.
The schema's `UNIQUE(slack_uid, month_year)` makes the insert fail with a
constraint violation when the pair already exists; counters take the schema
default `0`; `created_at = updated_at = now`; `fresh` is the surrogate id
SQLite assigns.  On any error the deferred rollback leaves the table as it
was, so only the error is returned. -/
def CreateMember (store : Store) (m : Member) (now fresh : Int) :
    Except Err (Store × Member) :=
  match Validate m with
  | .error e => .error e
  | .ok _ =>
    if store.any (fun x => x.slackUID == m.slackUID && x.date == m.date) then
      .error .conflict
    else
      let inserted : Member :=
        { id := fresh, date := m.date, slackUID := m.slackUID,
          receivedLikes := 0, receivedDislikes := 0,
          createdAt := now, updatedAt := now }
      .ok (store ++ [inserted], inserted)

/-- `statsd.MemberUpdate`: optional replacement values for the two counters
(a `nil` pointer means "leave the stored value"). -/
structure MemberUpdate where
  receivedLikes : Option Int := none
  receivedDislikes : Option Int := none

/-- `MemberService.UpdateMember`: read the row by id (ErrNotFound when
absent), overwrite each counter whose update pointer is non-nil, then
`UPDATE members SET received_likes = ?, received_dislikes = ?,
updated_at = ? WHERE id = ? RETURNING *` — only those three columns are
written. -/
def UpdateMember (store : Store) (id : Int) (upd : MemberUpdate) (now : Int) :
    Except Err (Store × Member) :=
  match FindMemberByID store id with
  | .error e => .error e
  | .ok m =>
    let m1 := match upd.receivedLikes with
      | some v => { m with receivedLikes := v }
      | none => m
    let m2 := match upd.receivedDislikes with
      | some v => { m1 with receivedDislikes := v }
      | none => m1
    let m3 := { m2 with updatedAt := now }
    .ok (store.map (fun x => if x.id == id then m3 else x), m3)

/-- Rows of the period: `WHERE month_year = ?`. -/
def rowsByPeriod (store : Store) (my : String) : Store :=
  store.filter (fun x => x.date == my)

/-- Row selected by `ORDER BY <counter> DESC LIMIT 1`: some row attaining the
maximum of `f` over the list (the first such row; SQLite leaves the order of
tied rows unspecified, and exactly one row is produced either way). -/
def argmaxBy (f : Member → Int) : List Member → Option Member
  | [] => none
  | m :: ms =>
    match argmaxBy f ms with
    | none => some m
    | some mb => if f mb > f m then some mb else some m

/-- Generated query `MostLikesReceived` (sqlc `:one`): `SELECT m.* FROM
members m WHERE month_year = ? ORDER BY received_likes DESC LIMIT 1`; with
zero rows a `:one` query returns `sql.ErrNoRows`. -/
def MostLikesReceived (store : Store) (my : String) : Except Err Member :=
  match argmaxBy Member.receivedLikes (rowsByPeriod store my) with
  | none => .error .sqlNoRows
  | some m => .ok m

/-- Generated query `MostDislikesReceived` (sqlc `:one`): same shape ordered
by `received_dislikes`. -/
def MostDislikesReceived (store : Store) (my : String) : Except Err Member :=
  match argmaxBy Member.receivedDislikes (rowsByPeriod store my) with
  | none => .error .sqlNoRows
  | some m => .ok m

/-- `statsd.Leaderboard`: one member for each of the two counters. -/
structure Leaderboard where
  date : String
  mostReceivedLikesMember : Member
  mostReceivedDislikesMember : Member
deriving DecidableEq, Repr

/-- `LeaderboardService.FindLeaderboard` (`sqlite/leaderboard.go`): run the
two `:one` queries; any error — including `sql.ErrNoRows` from an empty
period — is returned verbatim, without being mapped to `ErrNotFound`. -/
def FindLeaderboard (store : Store) (my : String) : Except Err Leaderboard :=
  match MostLikesReceived store my with
  | .error e => .error e
  | .ok likesM =>
    match MostDislikesReceived store my with
    | .error e => .error e
    | .ok dislikesM =>
      .ok { date := my, mostReceivedLikesMember := likesM,
            mostReceivedDislikesMember := dislikesM }

/-- Modelled from the spec: `maxByCounter(period, counterName)` returns all
members of the period whose counter equals the maximum observed among the
period's members (ties all returned).  The repository's actual query layer
(`query.sql` + generated code) instead runs a `LIMIT 1` `:one` query; this
definition follows the spec's words, for comparison with the source. -/
def maxByCounterSpec (store : Store) (my : String) (f : Member → Int) :
    List Member :=
  let rows := rowsByPeriod store my
  match (rows.map f).max? with
  | none => []
  | some mx => rows.filter (fun x => f x == mx)

/-- Member-service calls the reconciliation handler can issue, in order. -/
inductive Op where
  | findOp
  | createOp
  | updateOp
deriving DecidableEq, Repr

/-- The positive sentinel reaction name (`http/slack.go`). -/
def ThumbsUp : String := "+1"

/-- The negative sentinel reaction name (`http/slack.go`). -/
def ThumbsDown : String := "-1"

/-- `Slack.HandleReactionEvent` (`http/slack.go`): discard events whose target
is empty or `USLACKBOT`; otherwise find the member for the current month,
create it with zero counters on `ErrNotFound` (surfacing any create error),
apply the counter-delta closure `f`, and persist both counters through
`UpdateMember`.  `my` is the `MonthYear` computed from the wall clock, `now`
the clock tick, `fresh` the surrogate id a create would assign.  Returns the
resulting table (or the surfaced error) together with the trace of
member-service calls made. -/
def HandleReactionEvent (store : Store) (my : String) (now fresh : Int)
    (uid : String) (f : Member → Member) : Except Err Store × List Op :=
  if uid == "USLACKBOT" || uid == "" then
    (.ok store, [])
  else
    match FindMember store uid my with
    | .error e =>
      if e = .notFound then
        let m0 : Member :=
          { id := 0, date := my, slackUID := uid, receivedLikes := 0,
            receivedDislikes := 0, createdAt := 0, updatedAt := 0 }
        match CreateMember store m0 now fresh with
        | .error e2 => (.error e2, [.findOp, .createOp])
        | .ok (store1, mem) =>
          let memU := f mem
          match UpdateMember store1 mem.id
              { receivedLikes := some memU.receivedLikes,
                receivedDislikes := some memU.receivedDislikes } now with
          | .error e3 => (.error e3, [.findOp, .createOp, .updateOp])
          | .ok (store2, _) => (.ok store2, [.findOp, .createOp, .updateOp])
      else
        (.error e, [.findOp])
    | .ok mem =>
      let memU := f mem
      match UpdateMember store mem.id
          { receivedLikes := some memU.receivedLikes,
            receivedDislikes := some memU.receivedDislikes } now with
      | .error e3 => (.error e3, [.findOp, .updateOp])
      | .ok (store2, _) => (.ok store2, [.findOp, .updateOp])

/-- One Slack reaction event as seen by the handlers: the reaction name, the
author of the reacted-to item (the event's target), and the reacting user. -/
structure ReactionEvent where
  reaction : String
  itemUser : String
  user : String
deriving DecidableEq, Repr

/-- `Slack.HandleReactionAddedEvent`: dispatch on the reaction name — `+1`
increments the target's received likes, `-1` the received dislikes, and any
other reaction returns success without touching the member service. -/
def HandleReactionAddedEvent (store : Store) (my : String) (now fresh : Int)
    (e : ReactionEvent) : Except Err Store × List Op :=
  if e.reaction == ThumbsUp then
    HandleReactionEvent store my now fresh e.itemUser addLike
  else if e.reaction == ThumbsDown then
    HandleReactionEvent store my now fresh e.itemUser addDislike
  else
    (.ok store, [])

/-- `Slack.HandleReactionRemovedEvent`: same dispatch with the clamped
decrement closures. -/
def HandleReactionRemovedEvent (store : Store) (my : String) (now fresh : Int)
    (e : ReactionEvent) : Except Err Store × List Op :=
  if e.reaction == ThumbsUp then
    HandleReactionEvent store my now fresh e.itemUser removeLike
  else if e.reaction == ThumbsDown then
    HandleReactionEvent store my now fresh e.itemUser removeDislike
  else
    (.ok store, [])

/-- Responses of the member service to the (at most) one find, one create and
one update call `HandleReactionEvent` issues.  Under a concurrent interleaving
the service may answer not-found to the find and yet report a uniqueness
conflict on the create (another event inserted the row in between). -/
structure ServiceOracle where
  findRes : Except Err Member
  createRes : Except Err Member
  updateRes : Except Err Member

/-- Control-flow skeleton of `Slack.HandleReactionEvent` with each
member-service call answered by an oracle, used to settle claims about the
handler's behaviour under concurrent create races: the branching, the call
trace and the surfaced errors are those of the source, independent of any
particular store state. -/
def handleReactionEventCalls (uid : String) (o : ServiceOracle)
    (f : Member → Member) : Except Err Unit × List Op :=
  if uid == "USLACKBOT" || uid == "" then
    (.ok (), [])
  else
    match o.findRes with
    | .error e =>
      if e = .notFound then
        match o.createRes with
        | .error e2 => (.error e2, [.findOp, .createOp])
        | .ok mem =>
          let _ := f mem
          match o.updateRes with
          | .error e3 => (.error e3, [.findOp, .createOp, .updateOp])
          | .ok _ => (.ok (), [.findOp, .createOp, .updateOp])
      else
        (.error e, [.findOp])
    | .ok mem =>
      let _ := f mem
      match o.updateRes with
      | .error e3 => (.error e3, [.findOp, .updateOp])
      | .ok _ => (.ok (), [.findOp, .updateOp])

/-- An add event followed by its matching-polarity remove event, applied to
one member record. -/
def addRemovePair (p : Polarity) (m : Member) : Member :=
  applyDelta .removed p (applyDelta .added p m)

/-- Example member A: 5 received likes in period `10-2023`. -/
def exA : Member :=
  { id := 1, date := "10-2023", slackUID := "UA", receivedLikes := 5,
    receivedDislikes := 0, createdAt := 0, updatedAt := 0 }

/-- Example member B: also 5 received likes in period `10-2023`, tying A. -/
def exB : Member :=
  { id := 2, date := "10-2023", slackUID := "UB", receivedLikes := 5,
    receivedDislikes := 1, createdAt := 0, updatedAt := 0 }

/-- Example member C: 3 received likes in period `10-2023`, below the max. -/
def exC : Member :=
  { id := 3, date := "10-2023", slackUID := "UC", receivedLikes := 3,
    receivedDislikes := 4, createdAt := 0, updatedAt := 0 }

/-- Example table holding A, B and C. -/
def exStore : Store := [exA, exB, exC]

/-- Example member with nonzero counters, used to exercise the add/remove
round trip. -/
def exD : Member :=
  { id := 4, date := "11-2023", slackUID := "UD", receivedLikes := 2,
    receivedDislikes := 3, createdAt := 0, updatedAt := 0 }

/-- Example member with an empty Slack user ID. -/
def exEmptyUID : Member :=
  { id := 0, date := "10-2023", slackUID := "", receivedLikes := 0,
    receivedDislikes := 0, createdAt := 0, updatedAt := 0 }

/-- Service responses seen by the losing side of a create race: the find
reports not-found, but another event inserts the row before this handler's
create, which therefore reports a uniqueness conflict. -/
def raceOracle : ServiceOracle :=
  { findRes := .error .notFound, createRes := .error .conflict,
    updateRes := .ok exA }

/-- An event whose reaction is neither `+1` nor `-1`. -/
def exEyesEvent : ReactionEvent :=
  { reaction := "eyes", itemUser := "U1", user := "U2" }

/-- Go `max` agrees with the mathematical binary maximum on `Int`. -/
theorem goMax_eq_max (a b : Int) : goMax a b = max a b := by
  unfold goMax
  rw [max_def]
  split_ifs <;> omega

/-- `argmaxBy` on a nonempty list returns an element attaining the maximum
of `f`. -/
theorem argmaxBy_spec (f : Member → Int) (l : List Member) (hne : l ≠ []) :
    ∃ m, argmaxBy f l = some m ∧ m ∈ l ∧ ∀ x ∈ l, f x ≤ f m := by
  induction l with
  | nil => exact absurd rfl hne
  | cons a t ih =>
    cases htn : argmaxBy f t with
    | none =>
      have ht : t = [] := by
        cases t with
        | nil => rfl
        | cons b t2 =>
          rcases ih (by simp) with ⟨m, hm, _, _⟩
          rw [htn] at hm
          cases hm
      subst ht
      exact ⟨a, by simp [argmaxBy], by simp, by simp⟩
    | some mb =>
      have htne : t ≠ [] := by
        intro h
        subst h
        simp [argmaxBy] at htn
      rcases ih htne with ⟨m, hm, hmem, hmax⟩
      rw [htn] at hm
      injection hm with hm
      subst hm
      by_cases hc : f mb > f a
      · refine ⟨mb, ?_, List.mem_cons_of_mem a hmem, ?_⟩
        · simp [argmaxBy, htn, hc]
        · intro x hx
          rcases List.mem_cons.mp hx with h1 | h2
          · subst h1
            exact le_of_lt hc
          · exact hmax x h2
      · refine ⟨a, ?_, List.mem_cons_self a t, ?_⟩
        · simp [argmaxBy, htn, hc]
        · intro x hx
          rcases List.mem_cons.mp hx with h1 | h2
          · subst h1
            exact le_refl _
          · exact le_trans (hmax x h2) (not_lt.mp hc)

/-- Each reaction delta keeps both counters non-negative. -/
theorem applyDelta_nonneg (d : Direction) (p : Polarity) (m : Member)
    (h1 : 0 ≤ m.receivedLikes) (h2 : 0 ≤ m.receivedDislikes) :
    0 ≤ (applyDelta d p m).receivedLikes ∧
      0 ≤ (applyDelta d p m).receivedDislikes := by
  cases d <;> cases p <;>
    simp [applyDelta, addLike, addDislike, removeLike, removeDislike,
      goMax_eq_max] <;>
    omega

/-- An add immediately followed by its matching remove is the identity on a
record whose counters are non-negative. -/
theorem addRemovePair_id (p : Polarity) (m : Member)
    (h1 : 0 ≤ m.receivedLikes) (h2 : 0 ≤ m.receivedDislikes) :
    addRemovePair p m = m := by
  cases p <;> cases m <;>
    simp_all [addRemovePair, applyDelta, addLike, addDislike, removeLike,
      removeDislike, goMax_eq_max]

/-- Claim C1, counterexample: with members A and B tied at the maximum
receivedLikes (5) and C below (3) in period `10-2023`, the source's
max-by-counter query (`ORDER BY received_likes DESC LIMIT 1`, sqlc `:one`)
returns the single member A, whereas the spec's `maxByCounter` returns both
A and B; since A ≠ B, the tied member B is missing from the result, so the
query does not return every member attaining the maximum. -/
theorem c1_tie_counterexample :
    MostLikesReceived exStore "10-2023" = Except.ok exA ∧
    maxByCounterSpec exStore "10-2023" Member.receivedLikes = [exA, exB] ∧
    exA ≠ exB := by
  refine ⟨rfl, rfl, ?_⟩
  decide

/-- Claim C1, amended: for every period with at least one stored member, each
of the two max-by-counter queries succeeds and returns exactly one member of
the period whose counter attains the maximum over the period; under a tie one
single tied member is returned, not all of them. -/
theorem c1_amended_single_max (store : Store) (my : String)
    (h : rowsByPeriod store my ≠ []) :
    (∃ m, MostLikesReceived store my = Except.ok m ∧
      m ∈ rowsByPeriod store my ∧
      ∀ x ∈ rowsByPeriod store my, x.receivedLikes ≤ m.receivedLikes) ∧
    (∃ m, MostDislikesReceived store my = Except.ok m ∧
      m ∈ rowsByPeriod store my ∧
      ∀ x ∈ rowsByPeriod store my, x.receivedDislikes ≤ m.receivedDislikes) := by
  constructor
  · rcases argmaxBy_spec Member.receivedLikes (rowsByPeriod store my) h with
      ⟨m, hm, hmem, hmax⟩
    exact ⟨m, by simp [MostLikesReceived, hm], hmem, hmax⟩
  · rcases argmaxBy_spec Member.receivedDislikes (rowsByPeriod store my) h with
      ⟨m, hm, hmem, hmax⟩
    exact ⟨m, by simp [MostDislikesReceived, hm], hmem, hmax⟩

/-- Claim C1, witness: the amended statement instantiated on the concrete
three-member table. -/
theorem c1_amended_single_max_witness :
    (∃ m, MostLikesReceived exStore "10-2023" = Except.ok m ∧
      m ∈ rowsByPeriod exStore "10-2023" ∧
      ∀ x ∈ rowsByPeriod exStore "10-2023", x.receivedLikes ≤ m.receivedLikes) ∧
    (∃ m, MostDislikesReceived exStore "10-2023" = Except.ok m ∧
      m ∈ rowsByPeriod exStore "10-2023" ∧
      ∀ x ∈ rowsByPeriod exStore "10-2023",
        x.receivedDislikes ≤ m.receivedDislikes) :=
  c1_amended_single_max exStore "10-2023" (by decide)

/-- Claim C2, counterexample: on the losing side of a create race — the find
answers not-found, the create answers a uniqueness conflict — the handler
surfaces the conflict to the caller and issues no further member-service call:
the trace is exactly one find followed by one create, with no re-read and no
retried mutation. -/
theorem c2_race_counterexample :
    handleReactionEventCalls "U1" raceOracle addLike =
      (Except.error Err.conflict, [Op.findOp, Op.createOp]) := rfl

/-- Claim C2, amended: whenever the find reports not-found and the create then
fails with the uniqueness conflict, the handler returns that conflict to the
caller and performs no retry of any kind — the call trace is exactly
find-then-create. -/
theorem c2_amended_conflict_surfaced (uid : String) (o : ServiceOracle)
    (f : Member → Member) (h1 : uid ≠ "USLACKBOT") (h2 : uid ≠ "")
    (hf : o.findRes = Except.error Err.notFound)
    (hc : o.createRes = Except.error Err.conflict) :
    handleReactionEventCalls uid o f =
      (Except.error Err.conflict, [Op.findOp, Op.createOp]) := by
  simp [handleReactionEventCalls, h1, h2, hf, hc]

/-- Claim C2, witness: the amended statement instantiated on the concrete
race oracle for target `U2`. -/
theorem c2_amended_conflict_surfaced_witness :
    handleReactionEventCalls "U2" raceOracle addLike =
      (Except.error Err.conflict, [Op.findOp, Op.createOp]) :=
  c2_amended_conflict_surfaced "U2" raceOracle addLike (by decide) (by decide)
    rfl rfl

/-- Claim C3: on a period with no member records (`01-1999`, empty table) the
leaderboard computation fails — no crash, no spurious member — but with the
raw `sql.ErrNoRows` store error of the zero-row `:one` query, which
`FindLeaderboard` propagates verbatim and which is a different error value
than `statsd.ErrNotFound`, contradicting the function's own documented
contract. -/
theorem c3_empty_period_error :
    FindLeaderboard ([] : Store) "01-1999" = Except.error Err.sqlNoRows ∧
    Err.sqlNoRows ≠ Err.notFound := by
  refine ⟨rfl, ?_⟩
  decide

/-- Claim C4: starting from any record with non-negative counters (as every
record is created, with both counters at the schema default 0), processing any
sequence of reaction events leaves both receivedLikes and receivedDislikes
non-negative; and removing from a counter already at zero leaves it at zero,
in particular remove(remove(remove(0))) = 0. -/
theorem c4_counters_nonneg (es : List (Direction × Polarity)) (m : Member)
    (h1 : 0 ≤ m.receivedLikes) (h2 : 0 ≤ m.receivedDislikes) :
    (0 ≤ (applyEvents es m).receivedLikes ∧
      0 ≤ (applyEvents es m).receivedDislikes) ∧
    ∀ m0 : Member, m0.receivedLikes = 0 →
      (applyEvents [(.removed, .positive), (.removed, .positive),
        (.removed, .positive)] m0).receivedLikes = 0 := by
  constructor
  · induction es generalizing m with
    | nil => exact ⟨h1, h2⟩
    | cons e t ih =>
      rcases applyDelta_nonneg e.1 e.2 m h1 h2 with ⟨ha, hb⟩
      simpa [applyEvents] using ih (applyDelta e.1 e.2 m) ha hb
  · intro m0 h0
    simp [applyEvents, applyDelta, removeLike, goMax_eq_max, h0]

/-- Claim C4, witness: the statement instantiated on a concrete record with
counters (2, 3) and a concrete event sequence of three removals. -/
theorem c4_counters_nonneg_witness :
    (0 ≤ (applyEvents [(.removed, .positive), (.removed, .positive),
        (.removed, .positive)] exD).receivedLikes ∧
      0 ≤ (applyEvents [(.removed, .positive), (.removed, .positive),
        (.removed, .positive)] exD).receivedDislikes) ∧
    ∀ m0 : Member, m0.receivedLikes = 0 →
      (applyEvents [(.removed, .positive), (.removed, .positive),
        (.removed, .positive)] m0).receivedLikes = 0 :=
  c4_counters_nonneg [(.removed, .positive), (.removed, .positive),
    (.removed, .positive)] exD (by decide) (by decide)

/-- Claim C5: from any counter state satisfying the non-negativity invariant,
an add event followed by its matching-polarity remove event on the same record
restores the record — both counters — exactly; iterating the add-then-remove
pair any number of times therefore converges to the same prior state. -/
theorem c5_add_remove_roundtrip (m : Member) (p : Polarity) (n : Nat)
    (h1 : 0 ≤ m.receivedLikes) (h2 : 0 ≤ m.receivedDislikes) :
    Nat.iterate (addRemovePair p) n m = m := by
  induction n with
  | zero => rfl
  | succ k ih =>
    rw [Function.iterate_succ_apply', ih, addRemovePair_id p m h1 h2]

/-- Claim C5, witness: four rounds of add-then-remove on the concrete record
with counters (2, 3) give back exactly that record. -/
theorem c5_add_remove_roundtrip_witness :
    Nat.iterate (addRemovePair .positive) 4 exD = exD :=
  c5_add_remove_roundtrip exD .positive 4 (by decide) (by decide)

/-- Claim C6: the counter delta a reaction event applies to a member record is
exactly: added positive increments receivedLikes by one; added negative
increments receivedDislikes by one; removed positive sets receivedLikes to
max(receivedLikes - 1, 0); removed negative sets receivedDislikes to
max(receivedDislikes - 1, 0); in each case the opposite-polarity counter is
unchanged. -/
theorem c6_delta_exact (m : Member) :
    ((applyDelta .added .positive m).receivedLikes = m.receivedLikes + 1 ∧
      (applyDelta .added .positive m).receivedDislikes = m.receivedDislikes) ∧
    ((applyDelta .added .negative m).receivedDislikes
        = m.receivedDislikes + 1 ∧
      (applyDelta .added .negative m).receivedLikes = m.receivedLikes) ∧
    ((applyDelta .removed .positive m).receivedLikes
        = max (m.receivedLikes - 1) 0 ∧
      (applyDelta .removed .positive m).receivedDislikes
        = m.receivedDislikes) ∧
    ((applyDelta .removed .negative m).receivedDislikes
        = max (m.receivedDislikes - 1) 0 ∧
      (applyDelta .removed .negative m).receivedLikes = m.receivedLikes) := by
  refine ⟨⟨?_, ?_⟩, ⟨?_, ?_⟩, ⟨?_, ?_⟩, ⟨?_, ?_⟩⟩ <;>
    simp [applyDelta, addLike, addDislike, removeLike, removeDislike,
      goMax_eq_max]

/-- Claim C7: creating a member whose Slack user ID is the empty string fails
with the Invalid error before anything reaches the table (the transaction is
rolled back, so nothing is stored), while validation passes for any member
with a non-empty Slack user ID. -/
theorem c7_create_validation (store : Store) (now fresh : Int)
    (m1 m2 : Member) (h1 : m1.slackUID = "") (h2 : m2.slackUID ≠ "") :
    CreateMember store m1 now fresh = Except.error Err.invalid ∧
    Validate m2 = Except.ok () := by
  constructor
  · simp [CreateMember, Validate, h1]
  · simp [Validate, h2]

/-- Claim C7, witness: the statement instantiated on the empty-UID member and
on member A. -/
theorem c7_create_validation_witness :
    CreateMember exStore exEmptyUID 5 9 = Except.error Err.invalid ∧
    Validate exA = Except.ok () :=
  c7_create_validation exStore 5 9 exEmptyUID exA rfl (by decide)

/-- Claim C8: a reaction event whose target identity is empty or the sentinel
`USLACKBOT` is discarded silently — the handler returns success, makes no
member-service call, and leaves the table exactly as it was. -/
theorem c8_sentinel_noop (store : Store) (my : String) (now fresh : Int)
    (f : Member → Member) (uid : String)
    (h : uid = "" ∨ uid = "USLACKBOT") :
    HandleReactionEvent store my now fresh uid f = (Except.ok store, []) := by
  rcases h with h | h <;> subst h <;> simp [HandleReactionEvent]

/-- Claim C8, witness: the statement instantiated with target `USLACKBOT` on
the concrete three-member table. -/
theorem c8_sentinel_noop_witness :
    HandleReactionEvent exStore "10-2023" 7 9 "USLACKBOT" addLike
      = (Except.ok exStore, []) :=
  c8_sentinel_noop exStore "10-2023" 7 9 addLike "USLACKBOT" (Or.inr rfl)

/-- Claim C9: updating an existing member replaces exactly the counters whose
update field is set (a missing field keeps the stored value), stamps
updatedAt with the call time, and never changes the member's id, Slack user
ID, period, or createdAt; every other row of the table is untouched. -/
theorem c9_update_frame (store : Store) (id : Int) (upd : MemberUpdate)
    (now : Int) (m : Member) (h : FindMemberByID store id = Except.ok m) :
    ∃ m2, UpdateMember store id upd now =
        Except.ok (store.map (fun x => if x.id == id then m2 else x), m2) ∧
      m2.id = m.id ∧ m2.slackUID = m.slackUID ∧ m2.date = m.date ∧
      m2.createdAt = m.createdAt ∧ m2.updatedAt = now ∧
      m2.receivedLikes = upd.receivedLikes.getD m.receivedLikes ∧
      m2.receivedDislikes = upd.receivedDislikes.getD m.receivedDislikes := by
  cases upd with
  | mk rl rd =>
    cases rl with
    | none =>
      cases rd with
      | none =>
        exact ⟨{ m with updatedAt := now }, by simp [UpdateMember, h],
          rfl, rfl, rfl, rfl, rfl, rfl, rfl⟩
      | some d =>
        exact ⟨{ m with receivedDislikes := d, updatedAt := now },
          by simp [UpdateMember, h], rfl, rfl, rfl, rfl, rfl, rfl, rfl⟩
    | some l =>
      cases rd with
      | none =>
        exact ⟨{ m with receivedLikes := l, updatedAt := now },
          by simp [UpdateMember, h], rfl, rfl, rfl, rfl, rfl, rfl, rfl⟩
      | some d =>
        refine ⟨{ { m with receivedLikes := l, receivedDislikes := d }
            with updatedAt := now }, ?_, rfl, rfl, rfl, rfl, rfl, rfl, rfl⟩
        simp [UpdateMember, h]

/-- Claim C9, witness: the statement instantiated on a one-row table, setting
only receivedLikes to 7 at time 99. -/
theorem c9_update_frame_witness :
    ∃ m2, UpdateMember [exA] 1 { receivedLikes := some 7 } 99 =
        Except.ok ([exA].map (fun x => if x.id == 1 then m2 else x), m2) ∧
      m2.id = exA.id ∧ m2.slackUID = exA.slackUID ∧ m2.date = exA.date ∧
      m2.createdAt = exA.createdAt ∧ m2.updatedAt = 99 ∧
      m2.receivedLikes = (Option.some 7).getD exA.receivedLikes ∧
      m2.receivedDislikes = (Option.none).getD exA.receivedDislikes :=
  c9_update_frame [exA] 1 { receivedLikes := some 7 } 99 exA rfl

/-- Claim C10: a reaction event whose reaction name is neither `+1` nor `-1`
makes both handlers return success immediately, with no member-service call
and the table unchanged — only the two thumbs reactions ever reach the
counters. -/
theorem c10_other_reaction_noop (store : Store) (my : String)
    (now fresh : Int) (e : ReactionEvent)
    (h1 : e.reaction ≠ ThumbsUp) (h2 : e.reaction ≠ ThumbsDown) :
    HandleReactionAddedEvent store my now fresh e = (Except.ok store, []) ∧
    HandleReactionRemovedEvent store my now fresh e = (Except.ok store, []) := by
  constructor <;>
    simp [HandleReactionAddedEvent, HandleReactionRemovedEvent, h1, h2]

/-- Claim C10, witness: the statement instantiated on an `eyes` reaction
event over the concrete three-member table. -/
theorem c10_other_reaction_noop_witness :
    HandleReactionAddedEvent exStore "10-2023" 7 9 exEyesEvent
      = (Except.ok exStore, []) ∧
    HandleReactionRemovedEvent exStore "10-2023" 7 9 exEyesEvent
      = (Except.ok exStore, []) :=
  c10_other_reaction_noop exStore "10-2023" 7 9 exEyesEvent (by decide)
    (by decide)

end Statsd
